import Mathlib

/-
Verification of the REST resource dispatcher and the diagnostic-aggregation
engine of the border-router management gateway (src/rest/resource.cpp and
src/common/api_strings.cpp), as a shallow embedding in Lean 4.

Modelling conventions:
  - machine integers become Nat (timestamps are steady-clock microsecond
    counts; the C++ computes a signed duration now - start and compares it
    with a nonnegative timeout, and Nat truncated subtraction agrees with
    that comparison since a negative duration is below every nonnegative
    timeout);
  - the JSON encoders (Json::Diag2JsonString, Json::Error2JsonString) are
    out of scope per the specification and are modelled by injective
    constructors of an explicit Body type;
  - results of calls into the mesh control library (otThreadSendDiagnosticGet,
    otIp6AddressFromString) are inputs of the embedded functions, so every
    library outcome is covered by quantification;
  - std::map<std::string, DiagInfo> is modelled as an association list with
    overwrite-or-append insertion; the claims proved below are insensitive to
    iteration order, which the specification leaves unspecified.
-/

namespace Otbr
namespace Rest

/-- Model of otError: OT_ERROR_NONE versus any failing error code. -/
inductive OtError where
  | NONE
  | FAILED
deriving DecidableEq, Repr

/-- HTTP methods from the transport layer that the handlers dispatch on.
kHead stands in for any method no handler names in a switch. -/
inductive HttpMethod where
  | kDelete
  | kGet
  | kHead
  | kPost
  | kPut
  | kOptions
deriving DecidableEq, Repr

/-- Numeric values of the HttpStatusCode enumeration used by resource.cpp. -/
def kStatusOk : Nat := 200

def kStatusCreated : Nat := 201

def kStatusNoContent : Nat := 204

def kStatusBadRequest : Nat := 400

def kStatusResourceNotFound : Nat := 404

def kStatusMethodNotAllowed : Nat := 405

def kStatusRequestTimeout : Nat := 408

def kStatusConflict : Nat := 409

def kStatusInternalServerError : Nat := 500

def kStatusInsufficientStorage : Nat := 507

/-- GetHttpStatus from resource.cpp lines 100-139: a switch over the ten
status enumerators with no default case; a value outside the enumerated
cases leaves the local string empty and the function returns it. The
argument is the underlying integer of the HttpStatusCode enumeration. -/
def GetHttpStatus (aErrorCode : Nat) : String :=
  if aErrorCode = 200 then "200 OK"
  else if aErrorCode = 201 then "201 Created"
  else if aErrorCode = 204 then "204 No Content"
  else if aErrorCode = 400 then "400 Bad Request"
  else if aErrorCode = 404 then "404 Not Found"
  else if aErrorCode = 405 then "405 Method Not Allowed"
  else if aErrorCode = 408 then "408 Request Timeout"
  else if aErrorCode = 409 then "409 Conflict"
  else if aErrorCode = 500 then "500 Internal Server Error"
  else if aErrorCode = 507 then "507 Insufficient Storage"
  else ""

/-- GetDeviceRoleName from api_strings.cpp lines 31-55: a switch over the
five otDeviceRole enumerators (DISABLED = 0, DETACHED = 1, CHILD = 2,
ROUTER = 3, LEADER = 4) with no default case; any other underlying value
returns the empty string. The role-name strings are the OTBR_ROLE_NAME
constants of the api_strings header. -/
def GetDeviceRoleName (aRole : Nat) : String :=
  if aRole = 0 then "disabled"
  else if aRole = 1 then "detached"
  else if aRole = 2 then "child"
  else if aRole = 3 then "router"
  else if aRole = 4 then "leader"
  else ""

/-- Model of otNetworkDiagTlv: the code reads only the type tag and, for
short-address entries, the mAddr16 payload; mData carries the payload (it
is mAddr16 when mType is the short-address tag, opaque otherwise). -/
structure DiagTlv where
  mType : Nat
  mData : Nat
deriving DecidableEq, Repr

/-- The type tag OT_NETWORK_DIAGNOSTIC_TLV_SHORT_ADDRESS of the openthread
network-diagnostic API. -/
def OT_NETWORK_DIAGNOSTIC_TLV_SHORT_ADDRESS : Nat := 1

/-- DiagInfo from the resource header: receipt timestamp and the ordered
entry sequence of one diagnostic record. -/
structure DiagInfo where
  mStartTime : Nat
  mDiagContent : List DiagTlv
deriving DecidableEq, Repr

/-- The diagnostic cache mDiagSet: a map from originator key to record,
modelled as an association list with overwrite-or-append insertion. -/
abbrev DiagCache := List (String × DiagInfo)

/-- Timeout in microseconds for deleting outdated diagnostics
(kDiagResetTimeout, resource.cpp line 95). -/
def kDiagResetTimeout : Nat := 3000000

/-- Timeout in microseconds for collecting diagnostics
(kDiagCollectTimeout, resource.cpp line 98). -/
def kDiagCollectTimeout : Nat := 2000000

/-- UpdateDiag (resource.cpp lines 1570-1577): stamp the record with the
current time and write it into mDiagSet under aKey, overwriting any prior
record for the same key (std::map subscript assignment). -/
def UpdateDiag (aKey : String) (aDiag : List DiagTlv) (now : Nat) (c : DiagCache) : DiagCache :=
  if c.any (fun p => p.1 = aKey) then
    c.map (fun p => if p.1 = aKey then (aKey, DiagInfo.mk now aDiag) else p)
  else
    c ++ [(aKey, DiagInfo.mk now aDiag)]

/-- DeleteOutDatedDiagnostic (resource.cpp lines 1551-1568): erase every
record whose age now - mStartTime is at least kDiagResetTimeout. -/
def DeleteOutDatedDiagnostic (now : Nat) (c : DiagCache) : DiagCache :=
  c.filter (fun p => now - p.2.mStartTime < kDiagResetTimeout)

/-- The snapshot loop of HandleDiagnosticCallback (resource.cpp lines
219-222): collect every cached record's entry sequence. -/
def Snapshot (c : DiagCache) : List (List DiagTlv) :=
  c.map (fun p => p.2.mDiagContent)

/-- Lookup of the record stored under a key in the cache. -/
def findDiag (aKey : String) (c : DiagCache) : Option DiagInfo :=
  (c.find? (fun p => p.1 = aKey)).map Prod.snd

/-- Response bodies: either untouched, or one of the two JSON encoders of
resource.cpp applied to its argument, modelled injectively since the wire
grammar is out of scope. -/
inductive Body where
  | empty
  | diag (aDiagContentSet : List (List DiagTlv))
  | error (aErrorCode : Nat) (aErrorMessage : String)
deriving DecidableEq, Repr

/-- The Response object as the handlers mutate it: status line, body,
completion flag, callback flag and the start timestamp of the pending
aggregation window. -/
structure Response where
  mCode : String
  mBody : Body
  mComplete : Bool
  mCallback : Bool
  mStartTime : Nat
deriving DecidableEq, Repr

/-- A freshly constructed response before any handler touched it. -/
def respInit : Response :=
  Response.mk "" Body.empty false false 0

/-- ErrorHandler (resource.cpp lines 232-240): set the status line from
GetHttpStatus, serialize the error kind into the body and complete the
response immediately. -/
def ErrorHandler (aResponse : Response) (aErrorCode : Nat) : Response :=
  { aResponse with
      mCode := GetHttpStatus aErrorCode
      mBody := Body.error aErrorCode (GetHttpStatus aErrorCode)
      mComplete := true }

/-- HandleDiagnosticCallback (resource.cpp lines 207-230): the completion
poller for a pending diagnostics response. Compute the elapsed time since
the response start timestamp; when it reaches kDiagCollectTimeout, evict
outdated cache records, serialize the cache snapshot into the body, set
status Ok and complete the response; otherwise do nothing. Returns the
updated response together with the updated cache mDiagSet. -/
def HandleDiagnosticCallback (now : Nat) (aResponse : Response) (c : DiagCache) :
    Response × DiagCache :=
  if kDiagCollectTimeout ≤ now - aResponse.mStartTime then
    let c2 := DeleteOutDatedDiagnostic now c
    ({ aResponse with
        mCode := GetHttpStatus kStatusOk
        mBody := Body.diag (Snapshot c2)
        mComplete := true }, c2)
  else
    (aResponse, c)

/-- The two fan-out targets of the diagnostics GET. -/
inductive Target where
  | unicast
  | multicast
deriving DecidableEq, Repr

/-- Diagnostic (resource.cpp lines 1579-1608): issue the unicast query to
the own routing locator, parse the all-routers multicast address, issue the
multicast query; the three library results are inputs. On the first failure
control jumps to exit and ErrorHandler completes an InternalError response;
on full success the start timestamp is recorded and the callback flag set.
The second component lists the queries the library accepted, in issue
order: a failing otThreadSendDiagnosticGet call issues nothing, but the
calls before it have already issued. -/
def Diagnostic (aSendRlocResult aParseResult aSendMulticastResult : OtError)
    (now : Nat) (aResponse : Response) : Response × List Target :=
  if aSendRlocResult ≠ OtError.NONE then
    (ErrorHandler aResponse kStatusInternalServerError, [])
  else if aParseResult ≠ OtError.NONE then
    (ErrorHandler aResponse kStatusInternalServerError, [Target.unicast])
  else if aSendMulticastResult ≠ OtError.NONE then
    (ErrorHandler aResponse kStatusInternalServerError, [Target.unicast])
  else
    ({ aResponse with mStartTime := now, mCallback := true },
     [Target.unicast, Target.multicast])

/-- One hexadecimal digit, lowercase, as snprintf %x produces. -/
def hexDigit (n : Nat) : Char :=
  if n < 10 then Char.ofNat (48 + n) else Char.ofNat (87 + n)

/-- Format of snprintf(rloc, sizeof(rloc), "0x%04x", aAddr16): the 0x
prefix followed by four lowercase hexadecimal digits of the 16-bit value. -/
def formatRloc (n : Nat) : String :=
  let m := n % 65536
  String.mk ['0', 'x', hexDigit (m / 4096 % 16), hexDigit (m / 256 % 16),
             hexDigit (m / 16 % 16), hexDigit (m % 16)]

/-- Json::CString2JsonString wraps the C string into a JSON string value. -/
def CString2JsonString (s : String) : String :=
  "\"" ++ s ++ "\""

/-- The key computation of DiagnosticResponseHandler (resource.cpp lines
1620-1639): keyRloc starts as the placeholder "0xffee" and is overwritten
by the formatted short address each time a short-address entry is seen. -/
def computeKeyRloc (tlvs : List DiagTlv) : String :=
  tlvs.foldl
    (fun key t =>
      if t.mType = OT_NETWORK_DIAGNOSTIC_TLV_SHORT_ADDRESS then
        CString2JsonString (formatRloc t.mData)
      else key)
    "0xffee"

/-- DiagnosticResponseHandler (resource.cpp lines 1618-1647): the reply
callback. On a failing error code control jumps to exit and only logs; on
success every entry of the reply is collected in arrival order and the
sequence is Put into the cache under the derived key. The parsed entry list
of the otMessage is an input. -/
def DiagnosticResponseHandler (aError : OtError) (tlvs : List DiagTlv) (now : Nat)
    (c : DiagCache) : DiagCache :=
  match aError with
  | OtError.NONE => UpdateDiag (computeKeyRloc tlvs) tlvs now c
  | OtError.FAILED => c

/-- The reply callback acting on the pair of the cache and the pending
response: the source callback receives no Response object and contains no
response operation, so the response component passes through untouched. -/
def DiagnosticResponseHandlerState (aError : OtError) (tlvs : List DiagTlv) (now : Nat)
    (st : DiagCache × Response) : DiagCache × Response :=
  (DiagnosticResponseHandler aError tlvs now st.1, st.2)

/-- The substantive per-method sub-handlers (GetNodeInfo, SetDataset, the
diagnostics fan-out, and so on) interact with the mesh control library;
their effect on the response is abstracted as an oracle indexed by the
sub-handler name, so every theorem about the dispatch layer holds for every
library behavior. -/
abbrev SubHandler := String → Response → Response

/-- The inline kOptions branch shared by the handlers that name it: set
status Ok and complete the response immediately, leaving the body alone. -/
def optionsBranch (aResponse : Response) : Response :=
  { aResponse with mCode := GetHttpStatus kStatusOk, mComplete := true }

/-- Resource::NodeInfo (resource.cpp lines 312-328): GET and DELETE are
dispatched, every other method, including OPTIONS, falls into the default
branch and yields MethodNotAllowed. -/
def NodeInfo (sub : SubHandler) (m : HttpMethod) (r : Response) : Response :=
  match m with
  | HttpMethod.kGet => sub "GetNodeInfo" r
  | HttpMethod.kDelete => sub "DeleteNodeInfo" r
  | _ => ErrorHandler r kStatusMethodNotAllowed

/-- Resource::BaId (resource.cpp lines 354-366): GET only. -/
def BaId (sub : SubHandler) (m : HttpMethod) (r : Response) : Response :=
  match m with
  | HttpMethod.kGet => sub "GetDataBaId" r
  | _ => ErrorHandler r kStatusMethodNotAllowed

/-- Resource::ExtendedAddr (resource.cpp lines 414-435): GET, PUT, and an
inline OPTIONS branch; default MethodNotAllowed. -/
def ExtendedAddr (sub : SubHandler) (m : HttpMethod) (r : Response) : Response :=
  match m with
  | HttpMethod.kGet => sub "GetDataExtendedAddr" r
  | HttpMethod.kPut => sub "SetDataExtendedAddr" r
  | HttpMethod.kOptions => optionsBranch r
  | _ => ErrorHandler r kStatusMethodNotAllowed

/-- Resource::State (resource.cpp lines 493-514): GET, PUT, OPTIONS. -/
def State (sub : SubHandler) (m : HttpMethod) (r : Response) : Response :=
  match m with
  | HttpMethod.kGet => sub "GetDataState" r
  | HttpMethod.kPut => sub "SetDataState" r
  | HttpMethod.kOptions => optionsBranch r
  | _ => ErrorHandler r kStatusMethodNotAllowed

/-- Resource::NetworkName (resource.cpp lines 529-541): GET only. -/
def NetworkName (sub : SubHandler) (m : HttpMethod) (r : Response) : Response :=
  match m with
  | HttpMethod.kGet => sub "GetDataNetworkName" r
  | _ => ErrorHandler r kStatusMethodNotAllowed

/-- Resource::LeaderData (resource.cpp lines 568-579): GET only. -/
def LeaderData (sub : SubHandler) (m : HttpMethod) (r : Response) : Response :=
  match m with
  | HttpMethod.kGet => sub "GetDataLeaderData" r
  | _ => ErrorHandler r kStatusMethodNotAllowed

/-- Resource::NumOfRoute (resource.cpp lines 606-618): GET only. -/
def NumOfRoute (sub : SubHandler) (m : HttpMethod) (r : Response) : Response :=
  match m with
  | HttpMethod.kGet => sub "GetDataNumOfRoute" r
  | _ => ErrorHandler r kStatusMethodNotAllowed

/-- Resource::Rloc16 (resource.cpp lines 633-645): GET only. -/
def Rloc16 (sub : SubHandler) (m : HttpMethod) (r : Response) : Response :=
  match m with
  | HttpMethod.kGet => sub "GetDataRloc16" r
  | _ => ErrorHandler r kStatusMethodNotAllowed

/-- Resource::ExtendedPanId (resource.cpp lines 658-670): GET only. -/
def ExtendedPanId (sub : SubHandler) (m : HttpMethod) (r : Response) : Response :=
  match m with
  | HttpMethod.kGet => sub "GetDataExtendedPanId" r
  | _ => ErrorHandler r kStatusMethodNotAllowed

/-- Resource::Rloc (resource.cpp lines 685-697): GET only. -/
def Rloc (sub : SubHandler) (m : HttpMethod) (r : Response) : Response :=
  match m with
  | HttpMethod.kGet => sub "GetDataRloc" r
  | _ => ErrorHandler r kStatusMethodNotAllowed

/-- Resource::Dataset (resource.cpp lines 841-862), shared by the active
and pending dataset paths: GET, PUT, OPTIONS. -/
def Dataset (which : String) (sub : SubHandler) (m : HttpMethod) (r : Response) : Response :=
  match m with
  | HttpMethod.kGet => sub ("GetDataset" ++ which) r
  | HttpMethod.kPut => sub ("SetDataset" ++ which) r
  | HttpMethod.kOptions => optionsBranch r
  | _ => ErrorHandler r kStatusMethodNotAllowed

/-- Resource::DatasetActive (resource.cpp lines 864-867). -/
def DatasetActive (sub : SubHandler) (m : HttpMethod) (r : Response) : Response :=
  Dataset "Active" sub m r

/-- Resource::DatasetPending (resource.cpp lines 869-872). -/
def DatasetPending (sub : SubHandler) (m : HttpMethod) (r : Response) : Response :=
  Dataset "Pending" sub m r

/-- Resource::IpaddrMleid (resource.cpp lines 888-906): GET, OPTIONS. -/
def IpaddrMleid (sub : SubHandler) (m : HttpMethod) (r : Response) : Response :=
  match m with
  | HttpMethod.kGet => sub "GetIpaddrMleid" r
  | HttpMethod.kOptions => optionsBranch r
  | _ => ErrorHandler r kStatusMethodNotAllowed

/-- Resource::CommissionerState (resource.cpp lines 963-984): GET, PUT,
OPTIONS. -/
def CommissionerState (sub : SubHandler) (m : HttpMethod) (r : Response) : Response :=
  match m with
  | HttpMethod.kGet => sub "GetCommissionerState" r
  | HttpMethod.kPut => sub "SetCommissionerState" r
  | HttpMethod.kOptions => optionsBranch r
  | _ => ErrorHandler r kStatusMethodNotAllowed

/-- Resource::CommissionerJoiner (resource.cpp lines 1128-1153): GET,
POST, DELETE, OPTIONS. -/
def CommissionerJoiner (sub : SubHandler) (m : HttpMethod) (r : Response) : Response :=
  match m with
  | HttpMethod.kGet => sub "GetJoiners" r
  | HttpMethod.kPost => sub "AddJoiner" r
  | HttpMethod.kDelete => sub "RemoveJoiner" r
  | HttpMethod.kOptions => optionsBranch r
  | _ => ErrorHandler r kStatusMethodNotAllowed

/-- Resource::SrpServerState (resource.cpp lines 1206-1227, registered when
the advertising proxy is built in): GET, PUT, OPTIONS. -/
def SrpServerState (sub : SubHandler) (m : HttpMethod) (r : Response) : Response :=
  match m with
  | HttpMethod.kGet => sub "GetSrpServerState" r
  | HttpMethod.kPut => sub "SetSrpServerState" r
  | HttpMethod.kOptions => optionsBranch r
  | _ => ErrorHandler r kStatusMethodNotAllowed

/-- Resource::SrpClientState (resource.cpp lines 1276-1297): GET, PUT,
OPTIONS. -/
def SrpClientState (sub : SubHandler) (m : HttpMethod) (r : Response) : Response :=
  match m with
  | HttpMethod.kGet => sub "GetSrpClientState" r
  | HttpMethod.kPut => sub "SetSrpClientState" r
  | HttpMethod.kOptions => optionsBranch r
  | _ => ErrorHandler r kStatusMethodNotAllowed

/-- Resource::SrpClientHost (resource.cpp lines 1399-1423): GET, PUT,
DELETE, OPTIONS. -/
def SrpClientHost (sub : SubHandler) (m : HttpMethod) (r : Response) : Response :=
  match m with
  | HttpMethod.kGet => sub "GetSrpClientHost" r
  | HttpMethod.kPut => sub "SetSrpClientHost" r
  | HttpMethod.kDelete => sub "DeleteSrpClientHost" r
  | HttpMethod.kOptions => optionsBranch r
  | _ => ErrorHandler r kStatusMethodNotAllowed

/-- Resource::SrpClientService (resource.cpp lines 1525-1549): GET, POST,
DELETE, OPTIONS. -/
def SrpClientService (sub : SubHandler) (m : HttpMethod) (r : Response) : Response :=
  match m with
  | HttpMethod.kGet => sub "GetSrpClientServices" r
  | HttpMethod.kPost => sub "AddSrpClientService" r
  | HttpMethod.kDelete => sub "DeleteSrpClientService" r
  | HttpMethod.kOptions => optionsBranch r
  | _ => ErrorHandler r kStatusMethodNotAllowed

/-- Resource::Diagnostic as registered for the diagnostics path performs no
dispatch on the request method: every method reaches the fan-out handler. -/
def DiagnosticDispatch (sub : SubHandler) (m : HttpMethod) (r : Response) : Response :=
  match m with
  | _ => sub "Diagnostic" r

/-- mResourceMap as populated by the Resource constructor (resource.cpp
lines 146-168), path by path in emplacement order. -/
def mResourceMap : List (String × (SubHandler → HttpMethod → Response → Response)) :=
  [("/diagnostics", DiagnosticDispatch),
   ("/node", NodeInfo),
   ("/node/ba-id", BaId),
   ("/node/state", State),
   ("/node/ext-address", ExtendedAddr),
   ("/node/network-name", NetworkName),
   ("/node/rloc16", Rloc16),
   ("/node/leader-data", LeaderData),
   ("/node/num-of-router", NumOfRoute),
   ("/node/ext-panid", ExtendedPanId),
   ("/node/rloc", Rloc),
   ("/node/dataset/active", DatasetActive),
   ("/node/dataset/pending", DatasetPending),
   ("/node/ipaddr/mleid", IpaddrMleid),
   ("/node/commissioner/state", CommissionerState),
   ("/node/commissioner/joiner", CommissionerJoiner),
   ("/node/srp/server/state", SrpServerState),
   ("/node/srp/client/state", SrpClientState),
   ("/node/srp/client/host", SrpClientHost),
   ("/node/srp/client/service", SrpClientService)]

/-- The registered paths: the keys of mResourceMap. -/
def registeredPaths : List String :=
  mResourceMap.map Prod.fst

/-- Resource::Handle (resource.cpp lines 179-193): exact-string lookup of
the request URL in mResourceMap; a hit invokes the bound handler, a miss
completes a ResourceNotFound error response. -/
def Handle (sub : SubHandler) (url : String) (m : HttpMethod) (r : Response) : Response :=
  match mResourceMap.find? (fun p => p.1 = url) with
  | some p => p.2 sub m r
  | none => ErrorHandler r kStatusResourceNotFound

/-- The methods each registered handler accepts, read off the method
switches of the source: a method is accepted when it does not fall into the
default MethodNotAllowed branch. The diagnostics handler performs no method
dispatch, so it accepts every method. -/
def accepts (url : String) (m : HttpMethod) : Bool :=
  match url, m with
  | "/diagnostics", _ => true
  | "/node", HttpMethod.kGet => true
  | "/node", HttpMethod.kDelete => true
  | "/node/ba-id", HttpMethod.kGet => true
  | "/node/state", HttpMethod.kGet => true
  | "/node/state", HttpMethod.kPut => true
  | "/node/state", HttpMethod.kOptions => true
  | "/node/ext-address", HttpMethod.kGet => true
  | "/node/ext-address", HttpMethod.kPut => true
  | "/node/ext-address", HttpMethod.kOptions => true
  | "/node/network-name", HttpMethod.kGet => true
  | "/node/rloc16", HttpMethod.kGet => true
  | "/node/leader-data", HttpMethod.kGet => true
  | "/node/num-of-router", HttpMethod.kGet => true
  | "/node/ext-panid", HttpMethod.kGet => true
  | "/node/rloc", HttpMethod.kGet => true
  | "/node/dataset/active", HttpMethod.kGet => true
  | "/node/dataset/active", HttpMethod.kPut => true
  | "/node/dataset/active", HttpMethod.kOptions => true
  | "/node/dataset/pending", HttpMethod.kGet => true
  | "/node/dataset/pending", HttpMethod.kPut => true
  | "/node/dataset/pending", HttpMethod.kOptions => true
  | "/node/ipaddr/mleid", HttpMethod.kGet => true
  | "/node/ipaddr/mleid", HttpMethod.kOptions => true
  | "/node/commissioner/state", HttpMethod.kGet => true
  | "/node/commissioner/state", HttpMethod.kPut => true
  | "/node/commissioner/state", HttpMethod.kOptions => true
  | "/node/commissioner/joiner", HttpMethod.kGet => true
  | "/node/commissioner/joiner", HttpMethod.kPost => true
  | "/node/commissioner/joiner", HttpMethod.kDelete => true
  | "/node/commissioner/joiner", HttpMethod.kOptions => true
  | "/node/srp/server/state", HttpMethod.kGet => true
  | "/node/srp/server/state", HttpMethod.kPut => true
  | "/node/srp/server/state", HttpMethod.kOptions => true
  | "/node/srp/client/state", HttpMethod.kGet => true
  | "/node/srp/client/state", HttpMethod.kPut => true
  | "/node/srp/client/state", HttpMethod.kOptions => true
  | "/node/srp/client/host", HttpMethod.kGet => true
  | "/node/srp/client/host", HttpMethod.kPut => true
  | "/node/srp/client/host", HttpMethod.kDelete => true
  | "/node/srp/client/host", HttpMethod.kOptions => true
  | "/node/srp/client/service", HttpMethod.kGet => true
  | "/node/srp/client/service", HttpMethod.kPost => true
  | "/node/srp/client/service", HttpMethod.kDelete => true
  | "/node/srp/client/service", HttpMethod.kOptions => true
  | _, _ => false

/-- A handler accepts a mutating method when PUT, POST or DELETE does not
fall into its MethodNotAllowed branch. -/
def acceptsMutating (url : String) : Bool :=
  accepts url HttpMethod.kPut || accepts url HttpMethod.kPost ||
    accepts url HttpMethod.kDelete

/-- A boolean that is not true is false. -/
theorem bool_eq_false {b : Bool} (h : ¬ b = true) : b = false := by
  cases b
  · rfl
  · exact absurd rfl h

/-- UpdateDiag rewrites in place when the key is already present. -/
theorem updateDiag_any_true (aKey : String) (aDiag : List DiagTlv) (now : Nat)
    (c : DiagCache) (h : (c.any fun q => decide (q.1 = aKey)) = true) :
    UpdateDiag aKey aDiag now c =
      c.map (fun p => if p.1 = aKey then (aKey, DiagInfo.mk now aDiag) else p) := by
  unfold UpdateDiag
  rw [if_pos h]

/-- UpdateDiag appends when the key is absent. -/
theorem updateDiag_any_false (aKey : String) (aDiag : List DiagTlv) (now : Nat)
    (c : DiagCache) (h : (c.any fun q => decide (q.1 = aKey)) = false) :
    UpdateDiag aKey aDiag now c = c ++ [(aKey, DiagInfo.mk now aDiag)] := by
  unfold UpdateDiag
  rw [if_neg (by simp [h])]

/-- Every entry of the cache produced by UpdateDiag that carries the
written key is exactly the written record. -/
theorem updateDiag_key_uniform (aKey : String) (aDiag : List DiagTlv) (now : Nat)
    (c : DiagCache) :
    ∀ p ∈ UpdateDiag aKey aDiag now c, p.1 = aKey → p = (aKey, DiagInfo.mk now aDiag) := by
  intro p hp hkey
  by_cases h : (c.any fun q => decide (q.1 = aKey)) = true
  · rw [updateDiag_any_true aKey aDiag now c h] at hp
    rcases List.mem_map.mp hp with ⟨q, _, hq⟩
    by_cases hqk : q.1 = aKey
    · rw [if_pos hqk] at hq
      exact hq.symm
    · rw [if_neg hqk] at hq
      rw [← hq] at hkey
      exact absurd hkey hqk
  · rw [updateDiag_any_false aKey aDiag now c (bool_eq_false h)] at hp
    rcases List.mem_append.mp hp with hc | hx
    · exact absurd (List.any_eq_true.mpr ⟨p, hc, decide_eq_true hkey⟩) h
    · simpa using hx

/-- The written record is a member of the cache produced by UpdateDiag. -/
theorem updateDiag_mem (aKey : String) (aDiag : List DiagTlv) (now : Nat) (c : DiagCache) :
    (aKey, DiagInfo.mk now aDiag) ∈ UpdateDiag aKey aDiag now c := by
  by_cases h : (c.any fun q => decide (q.1 = aKey)) = true
  · rw [updateDiag_any_true aKey aDiag now c h]
    rcases List.any_eq_true.mp h with ⟨q, hqc, hqk⟩
    exact List.mem_map.mpr ⟨q, hqc, by rw [if_pos (of_decide_eq_true hqk)]⟩
  · rw [updateDiag_any_false aKey aDiag now c (bool_eq_false h)]
    simp

/-- In a list where every entry with the key equals one fixed pair, the
first entry found under that key is that pair. -/
theorem find?_key_uniform (aKey : String) (v : DiagInfo) (l : DiagCache)
    (hu : ∀ p ∈ l, p.1 = aKey → p = (aKey, v)) (hm : (aKey, v) ∈ l) :
    l.find? (fun p => p.1 = aKey) = some (aKey, v) := by
  induction l with
  | nil => simp at hm
  | cons hd tl ih =>
    by_cases hk : hd.1 = aKey
    · have : hd = (aKey, v) := hu hd (List.mem_cons_self hd tl) hk
      simp [List.find?_cons, hk, this]
    · have hm2 : (aKey, v) ∈ tl := by
        rcases List.mem_cons.mp hm with heq | htl
        · rw [← heq] at hk
          simp at hk
        · exact htl
      have hu2 : ∀ p ∈ tl, p.1 = aKey → p = (aKey, v) :=
        fun p hp => hu p (List.mem_cons_of_mem hd hp)
      simp [List.find?_cons, hk, ih hu2 hm2]

/-- If every entry of a list that carries the key fails the filter
predicate, the filtered list holds no entry under that key. -/
theorem find?_filter_none (aKey : String) (l : DiagCache) (pred : String × DiagInfo → Bool)
    (h : ∀ p ∈ l, p.1 = aKey → pred p = false) :
    (l.filter pred).find? (fun p => p.1 = aKey) = none := by
  rw [List.find?_eq_none]
  intro p hp
  rcases List.mem_filter.mp hp with ⟨hpl, hpred⟩
  simp only [decide_eq_true_eq]
  intro hk
  rw [h p hpl hk] at hpred
  simp at hpred

/-- A Put under a key followed by another Put under the same key produces
the very cache of the second Put alone. -/
theorem updateDiag_twice (aKey : String) (e1 e2 : List DiagTlv) (t1 t2 : Nat)
    (c : DiagCache) :
    UpdateDiag aKey e2 t2 (UpdateDiag aKey e1 t1 c) = UpdateDiag aKey e2 t2 c := by
  by_cases h : (c.any fun q => decide (q.1 = aKey)) = true
  · have h1 := updateDiag_any_true aKey e1 t1 c h
    have hany2 : ((UpdateDiag aKey e1 t1 c).any fun q => decide (q.1 = aKey)) = true := by
      rcases List.any_eq_true.mp h with ⟨q, hqc, hqk⟩
      refine List.any_eq_true.mpr ⟨(aKey, DiagInfo.mk t1 e1), ?_, decide_eq_true rfl⟩
      rw [h1]
      exact List.mem_map.mpr ⟨q, hqc, by rw [if_pos (of_decide_eq_true hqk)]⟩
    rw [updateDiag_any_true aKey e2 t2 _ hany2, updateDiag_any_true aKey e2 t2 c h, h1,
      List.map_map]
    refine List.map_congr_left ?_
    intro p _
    by_cases hpk : p.1 = aKey
    · simp [Function.comp, hpk]
    · simp [Function.comp, hpk]
  · have h1 := updateDiag_any_false aKey e1 t1 c (bool_eq_false h)
    have hany2 : ((UpdateDiag aKey e1 t1 c).any fun q => decide (q.1 = aKey)) = true := by
      rw [h1]
      simp
    rw [updateDiag_any_true aKey e2 t2 _ hany2,
      updateDiag_any_false aKey e2 t2 c (bool_eq_false h), h1, List.map_append]
    have hnone : ∀ p ∈ c, ¬ (p.1 = aKey) := by
      intro p hp hk
      exact absurd (List.any_eq_true.mpr ⟨p, hp, decide_eq_true hk⟩) h
    have hc : c.map (fun p => if p.1 = aKey then (aKey, DiagInfo.mk t2 e2) else p) = c := by
      have hid : c.map (fun p => if p.1 = aKey then (aKey, DiagInfo.mk t2 e2) else p) =
          c.map id :=
        List.map_congr_left (fun p hp => by simp [hnone p hp])
      rw [hid, List.map_id]
    rw [hc]
    simp

/-- Lookup after UpdateDiag returns the freshly written record, whatever
stood there before. -/
theorem findDiag_updateDiag (aKey : String) (aDiag : List DiagTlv) (now : Nat)
    (c : DiagCache) :
    findDiag aKey (UpdateDiag aKey aDiag now c) = some (DiagInfo.mk now aDiag) := by
  unfold findDiag
  rw [find?_key_uniform aKey (DiagInfo.mk now aDiag) _
    (updateDiag_key_uniform aKey aDiag now c) (updateDiag_mem aKey aDiag now c)]
  rfl

/-- CLAIM C4. Overwrite semantics of the diagnostic cache: for every cache
state, key and entry sequences, Put with the same key twice leaves the very
cache that a single Put of the second record produces, so exactly the
second record's entries stand under the key, nothing is merged, and the
records under every other key are untouched. -/
theorem cache_put_overwrite (aKey : String) (e1 e2 : List DiagTlv) (t1 t2 : Nat)
    (c : DiagCache) :
    UpdateDiag aKey e2 t2 (UpdateDiag aKey e1 t1 c) = UpdateDiag aKey e2 t2 c ∧
      findDiag aKey (UpdateDiag aKey e2 t2 (UpdateDiag aKey e1 t1 c)) =
        some (DiagInfo.mk t2 e2) := by
  refine ⟨updateDiag_twice aKey e1 e2 t1 t2 c, ?_⟩
  rw [updateDiag_twice aKey e1 e2 t1 t2 c]
  exact findDiag_updateDiag aKey e2 t2 c

/-- CLAIM C3. Eviction window of the diagnostic cache: a record Put at time
T is still found, and its entries still appear in the snapshot, after the
mandated eviction at any query time Tq with Tq - T below the eviction
threshold, and the record is gone after an eviction at any Tq with Tq - T
at or above the threshold. -/
theorem cache_eviction_window (aKey : String) (e : List DiagTlv) (T Tq : Nat)
    (c : DiagCache) :
    (Tq - T < kDiagResetTimeout →
      findDiag aKey (DeleteOutDatedDiagnostic Tq (UpdateDiag aKey e T c)) =
          some (DiagInfo.mk T e) ∧
        e ∈ Snapshot (DeleteOutDatedDiagnostic Tq (UpdateDiag aKey e T c))) ∧
    (kDiagResetTimeout ≤ Tq - T →
      findDiag aKey (DeleteOutDatedDiagnostic Tq (UpdateDiag aKey e T c)) = none) := by
  constructor
  · intro hlt
    have hpred : (fun p : String × DiagInfo => decide (Tq - p.2.mStartTime < kDiagResetTimeout))
        (aKey, DiagInfo.mk T e) = true := by
      simp [hlt]
    have hfind : (DeleteOutDatedDiagnostic Tq (UpdateDiag aKey e T c)).find?
        (fun p => p.1 = aKey) = some (aKey, DiagInfo.mk T e) := by
      apply find?_key_uniform
      · intro p hp
        exact updateDiag_key_uniform aKey e T c p (List.mem_filter.mp hp).1
      · exact List.mem_filter.mpr ⟨updateDiag_mem aKey e T c, hpred⟩
    constructor
    · unfold findDiag
      rw [hfind]
      rfl
    · have hmem : (aKey, DiagInfo.mk T e) ∈
          DeleteOutDatedDiagnostic Tq (UpdateDiag aKey e T c) :=
        List.mem_of_find?_eq_some hfind
      exact List.mem_map.mpr ⟨(aKey, DiagInfo.mk T e), hmem, rfl⟩
  · intro hge
    unfold findDiag DeleteOutDatedDiagnostic
    rw [find?_filter_none]
    · rfl
    · intro p hp hk
      rw [updateDiag_key_uniform aKey e T c p hp hk]
      simp [Nat.not_lt.mpr hge]

/-- The key computation stays at the placeholder when no entry of the reply
carries the short-address type tag. -/
theorem computeKeyRloc_no_short (tlvs : List DiagTlv)
    (h : ∀ t ∈ tlvs, t.mType ≠ OT_NETWORK_DIAGNOSTIC_TLV_SHORT_ADDRESS) :
    computeKeyRloc tlvs = "0xffee" := by
  unfold computeKeyRloc
  suffices hgen : ∀ (acc : String), tlvs.foldl
      (fun key t =>
        if t.mType = OT_NETWORK_DIAGNOSTIC_TLV_SHORT_ADDRESS then
          CString2JsonString (formatRloc t.mData)
        else key) acc = acc by
    exact hgen "0xffee"
  induction tlvs with
  | nil => intro acc; rfl
  | cons hd tl ih =>
    intro acc
    have hhd : hd.mType ≠ OT_NETWORK_DIAGNOSTIC_TLV_SHORT_ADDRESS :=
      h hd (List.mem_cons_self hd tl)
    have htl : ∀ t ∈ tl, t.mType ≠ OT_NETWORK_DIAGNOSTIC_TLV_SHORT_ADDRESS :=
      fun t ht => h t (List.mem_cons_of_mem hd ht)
    have ih2 := ih htl
    simp only [List.foldl_cons, if_neg hhd]
    exact ih2 acc

/-- CLAIM C6. Replies without a short-address entry are filed under the
single fixed placeholder key: one such reply is Put under the placeholder,
and a second such reply overwrites the first record under that same key,
leaving only the second reply's entries there. -/
theorem placeholder_key_filing (tlvs1 tlvs2 : List DiagTlv) (t1 t2 : Nat) (c : DiagCache)
    (h1 : ∀ t ∈ tlvs1, t.mType ≠ OT_NETWORK_DIAGNOSTIC_TLV_SHORT_ADDRESS)
    (h2 : ∀ t ∈ tlvs2, t.mType ≠ OT_NETWORK_DIAGNOSTIC_TLV_SHORT_ADDRESS) :
    DiagnosticResponseHandler OtError.NONE tlvs1 t1 c = UpdateDiag "0xffee" tlvs1 t1 c ∧
      DiagnosticResponseHandler OtError.NONE tlvs2 t2
          (DiagnosticResponseHandler OtError.NONE tlvs1 t1 c) =
        UpdateDiag "0xffee" tlvs2 t2 c ∧
      findDiag "0xffee"
          (DiagnosticResponseHandler OtError.NONE tlvs2 t2
            (DiagnosticResponseHandler OtError.NONE tlvs1 t1 c)) =
        some (DiagInfo.mk t2 tlvs2) := by
  have k1 : computeKeyRloc tlvs1 = "0xffee" := computeKeyRloc_no_short tlvs1 h1
  have k2 : computeKeyRloc tlvs2 = "0xffee" := computeKeyRloc_no_short tlvs2 h2
  have e1 : DiagnosticResponseHandler OtError.NONE tlvs1 t1 c =
      UpdateDiag "0xffee" tlvs1 t1 c := by
    show UpdateDiag (computeKeyRloc tlvs1) tlvs1 t1 c = UpdateDiag "0xffee" tlvs1 t1 c
    rw [k1]
  have e2 : DiagnosticResponseHandler OtError.NONE tlvs2 t2
      (DiagnosticResponseHandler OtError.NONE tlvs1 t1 c) =
      UpdateDiag "0xffee" tlvs2 t2 (UpdateDiag "0xffee" tlvs1 t1 c) := by
    show UpdateDiag (computeKeyRloc tlvs2) tlvs2 t2
        (DiagnosticResponseHandler OtError.NONE tlvs1 t1 c) =
      UpdateDiag "0xffee" tlvs2 t2 (UpdateDiag "0xffee" tlvs1 t1 c)
    rw [k2, e1]
  refine ⟨e1, ?_, ?_⟩
  · rw [e2, updateDiag_twice "0xffee" tlvs1 tlvs2 t1 t2 c]
  · rw [e2, updateDiag_twice "0xffee" tlvs1 tlvs2 t1 t2 c]
    exact findDiag_updateDiag "0xffee" tlvs2 t2 c

/-- CLAIM C7. A reply callback invocation carrying a failing error code
leaves the diagnostic cache completely unchanged and does not complete,
fail or otherwise modify the pending response: the whole engine state
passes through identically (the source callback only logs the failure). -/
theorem reply_failure_discard (aError : OtError) (tlvs : List DiagTlv) (now : Nat)
    (st : DiagCache × Response) (h : aError ≠ OtError.NONE) :
    DiagnosticResponseHandlerState aError tlvs now st = st := by
  cases aError with
  | NONE => exact absurd rfl h
  | FAILED => rfl

/-- CLAIM C10. A reply callback invocation carrying the success code
performs exactly one Put: the cache becomes the single Put of the collected
entry sequence under the computed key. When the reply holds zero entries
the empty sequence is stored under the placeholder key "0xffee",
overwriting any record previously held under that key. -/
theorem reply_success_single_put (tlvs : List DiagTlv) (now tprev : Nat)
    (eprev : List DiagTlv) (c : DiagCache) :
    DiagnosticResponseHandler OtError.NONE tlvs now c =
        UpdateDiag (computeKeyRloc tlvs) tlvs now c ∧
      DiagnosticResponseHandler OtError.NONE [] now c = UpdateDiag "0xffee" [] now c ∧
      findDiag "0xffee"
          (DiagnosticResponseHandler OtError.NONE [] now
            (UpdateDiag "0xffee" eprev tprev c)) =
        some (DiagInfo.mk now []) := by
  refine ⟨rfl, rfl, ?_⟩
  show findDiag "0xffee" (UpdateDiag "0xffee" [] now (UpdateDiag "0xffee" eprev tprev c)) =
    some (DiagInfo.mk now [])
  rw [updateDiag_twice "0xffee" eprev [] tprev now c]
  exact findDiag_updateDiag "0xffee" [] now c

/-- Witness for cache_eviction_window: a record Put at time 0 survives an
eviction at 1000000 microseconds and is gone after an eviction at the
3000000 microsecond threshold. -/
theorem cache_eviction_window_witness :
    findDiag "k" (DeleteOutDatedDiagnostic 1000000 (UpdateDiag "k" [DiagTlv.mk 2 5] 0 [])) =
        some (DiagInfo.mk 0 [DiagTlv.mk 2 5]) ∧
      findDiag "k" (DeleteOutDatedDiagnostic 3000000 (UpdateDiag "k" [DiagTlv.mk 2 5] 0 [])) =
        none :=
  ⟨((cache_eviction_window "k" [DiagTlv.mk 2 5] 0 1000000 []).1 (by decide)).1,
   (cache_eviction_window "k" [DiagTlv.mk 2 5] 0 3000000 []).2 (by decide)⟩

/-- Witness for placeholder_key_filing: two concrete replies without a
short-address entry land under the placeholder key, the second alone
remaining. -/
theorem placeholder_key_filing_witness :
    DiagnosticResponseHandler OtError.NONE [DiagTlv.mk 2 5] 10 [] =
        UpdateDiag "0xffee" [DiagTlv.mk 2 5] 10 [] ∧
      DiagnosticResponseHandler OtError.NONE [DiagTlv.mk 3 6] 20
          (DiagnosticResponseHandler OtError.NONE [DiagTlv.mk 2 5] 10 []) =
        UpdateDiag "0xffee" [DiagTlv.mk 3 6] 20 [] ∧
      findDiag "0xffee"
          (DiagnosticResponseHandler OtError.NONE [DiagTlv.mk 3 6] 20
            (DiagnosticResponseHandler OtError.NONE [DiagTlv.mk 2 5] 10 [])) =
        some (DiagInfo.mk 20 [DiagTlv.mk 3 6]) :=
  placeholder_key_filing [DiagTlv.mk 2 5] [DiagTlv.mk 3 6] 10 20 [] (by decide) (by decide)

/-- Witness for reply_failure_discard: a failing reply leaves a concrete
engine state untouched. -/
theorem reply_failure_discard_witness :
    DiagnosticResponseHandlerState OtError.FAILED [DiagTlv.mk 1 7] 5
        ([("k", DiagInfo.mk 0 [])], respInit) = ([("k", DiagInfo.mk 0 [])], respInit) :=
  reply_failure_discard OtError.FAILED [DiagTlv.mk 1 7] 5
    ([("k", DiagInfo.mk 0 [])], respInit) (by decide)

/-- CLAIM C1. The pending diagnostics window is poll driven: a poller
invocation at a time whose distance from the response start timestamp is
below kDiagCollectTimeout returns the response and the cache exactly as
they were, and an invocation at or past the timeout evicts the outdated
cache records, serializes the snapshot of the evicted cache into the body,
sets status Ok and marks the response complete. -/
theorem poll_window_closure (now : Nat) (r : Response) (c : DiagCache) :
    (now - r.mStartTime < kDiagCollectTimeout →
      HandleDiagnosticCallback now r c = (r, c)) ∧
    (kDiagCollectTimeout ≤ now - r.mStartTime →
      HandleDiagnosticCallback now r c =
        ({ r with
            mCode := GetHttpStatus kStatusOk
            mBody := Body.diag (Snapshot (DeleteOutDatedDiagnostic now c))
            mComplete := true }, DeleteOutDatedDiagnostic now c)) := by
  constructor
  · intro h
    unfold HandleDiagnosticCallback
    rw [if_neg (Nat.not_le.mpr h)]
  · intro h
    unfold HandleDiagnosticCallback
    rw [if_pos h]

/-- Witness for poll_window_closure: at one second the pending response is
untouched; at two seconds it completes with the snapshot body. -/
theorem poll_window_closure_witness :
    HandleDiagnosticCallback 1000000 respInit [] = (respInit, []) ∧
      HandleDiagnosticCallback 2000000 respInit [] =
        ({ respInit with
            mCode := GetHttpStatus kStatusOk
            mBody := Body.diag []
            mComplete := true }, []) :=
  ⟨(poll_window_closure 1000000 respInit []).1 (by decide),
   (poll_window_closure 2000000 respInit []).2 (by decide)⟩

/-- CLAIM C2 counterexample. With the unicast issuance accepted by the
library and the multicast issuance failing, the handler does complete an
InternalError response, but the unicast query has already been issued: the
issued-query list is nonempty, refuting the claim that failure of the
second issuance implies no query was issued at all. -/
theorem diagnostic_partial_issue_cex :
    (Diagnostic OtError.NONE OtError.NONE OtError.FAILED 0 respInit).1.mComplete = true ∧
      (Diagnostic OtError.NONE OtError.NONE OtError.FAILED 0 respInit).1.mCode =
        GetHttpStatus kStatusInternalServerError ∧
      (Diagnostic OtError.NONE OtError.NONE OtError.FAILED 0 respInit).2 =
        [Target.unicast] ∧
      (Diagnostic OtError.NONE OtError.NONE OtError.FAILED 0 respInit).2 ≠ [] := by
  refine ⟨rfl, rfl, rfl, ?_⟩
  decide

/-- CLAIM C2 as amended. If any of the unicast issuance, the multicast
address parse or the multicast issuance fails at the library level, the
handler completes an InternalError response immediately and the callback
flag is never set; a failing first issuance means no query was issued, but
a failure at the parse or at the second issuance leaves the unicast query
already issued. On full success both queries are issued, the start
timestamp is recorded and the callback flag set. -/
theorem diagnostic_issue_failfast (s1 p2 s3 : OtError) (now : Nat) (r : Response) :
    (¬ (s1 = OtError.NONE ∧ p2 = OtError.NONE ∧ s3 = OtError.NONE) →
      (Diagnostic s1 p2 s3 now r).1 = ErrorHandler r kStatusInternalServerError ∧
        (Diagnostic s1 p2 s3 now r).1.mComplete = true) ∧
    (s1 ≠ OtError.NONE → (Diagnostic s1 p2 s3 now r).2 = []) ∧
    (s1 = OtError.NONE → ¬ (p2 = OtError.NONE ∧ s3 = OtError.NONE) →
      (Diagnostic s1 p2 s3 now r).2 = [Target.unicast]) ∧
    (s1 = OtError.NONE → p2 = OtError.NONE → s3 = OtError.NONE →
      Diagnostic s1 p2 s3 now r =
        ({ r with mStartTime := now, mCallback := true },
         [Target.unicast, Target.multicast])) := by
  cases s1 <;> cases p2 <;> cases s3 <;>
    simp [Diagnostic, ErrorHandler]

/-- Witness for diagnostic_issue_failfast: a failing unicast issuance
completes InternalError with nothing issued. -/
theorem diagnostic_issue_failfast_witness :
    (Diagnostic OtError.FAILED OtError.NONE OtError.NONE 7 respInit).1 =
        ErrorHandler respInit kStatusInternalServerError ∧
      (Diagnostic OtError.FAILED OtError.NONE OtError.NONE 7 respInit).2 = [] :=
  ⟨((diagnostic_issue_failfast OtError.FAILED OtError.NONE OtError.NONE 7 respInit).1
      (by decide)).1,
   (diagnostic_issue_failfast OtError.FAILED OtError.NONE OtError.NONE 7 respInit).2.1
      (by decide)⟩

/-- CLAIM C9. The enum-to-string mappers whose switch has no default case
return the empty string on every input outside the enumerated cases: the
status mapper GetHttpStatus outside its ten status codes and the role
mapper GetDeviceRoleName outside the five device roles. -/
theorem enum_switch_default_empty (n rr : Nat) :
    (n ∉ ([200, 201, 204, 400, 404, 405, 408, 409, 500, 507] : List Nat) →
      GetHttpStatus n = "") ∧
    (rr ∉ ([0, 1, 2, 3, 4] : List Nat) → GetDeviceRoleName rr = "") := by
  constructor
  · intro h
    simp only [List.mem_cons, List.not_mem_nil, or_false, not_or] at h
    obtain ⟨h1, h2, h3, h4, h5, h6, h7, h8, h9, h10⟩ := h
    simp [GetHttpStatus, h1, h2, h3, h4, h5, h6, h7, h8, h9, h10]
  · intro h
    simp only [List.mem_cons, List.not_mem_nil, or_false, not_or] at h
    obtain ⟨h1, h2, h3, h4, h5⟩ := h
    simp [GetDeviceRoleName, h1, h2, h3, h4, h5]

/-- Witness for enum_switch_default_empty: 299 is no status enumerator and
7 is no device role. -/
theorem enum_switch_default_empty_witness :
    GetHttpStatus 299 = "" ∧ GetDeviceRoleName 7 = "" :=
  ⟨(enum_switch_default_empty 299 7).1 (by decide),
   (enum_switch_default_empty 299 7).2 (by decide)⟩

/-- CLAIM C5 counterexample. The /node resource accepts the mutating
method DELETE, yet an OPTIONS request to it falls into the default branch
of Resource::NodeInfo and completes a MethodNotAllowed error, not an
empty Ok: the status line differs from the Ok status line. -/
theorem options_node_cex :
    acceptsMutating "/node" = true ∧
      Handle (fun _ r => r) "/node" HttpMethod.kOptions respInit =
        ErrorHandler respInit kStatusMethodNotAllowed ∧
      (Handle (fun _ r => r) "/node" HttpMethod.kOptions respInit).mCode ≠
        GetHttpStatus kStatusOk ∧
      (Handle (fun _ r => r) "/node" HttpMethod.kOptions respInit).mBody ≠
        respInit.mBody := by
  refine ⟨rfl, rfl, ?_, ?_⟩
  · decide
  · decide

/-- CLAIM C5 as amended. Every registered resource other than /node and
/diagnostics whose handler accepts a mutating method (PUT, POST or DELETE)
answers OPTIONS with an immediately-completed Ok response whose body is
left untouched (empty for a fresh response); /node, although it accepts
DELETE, answers OPTIONS with MethodNotAllowed, and the diagnostics handler
runs the fan-out for every method instead. -/
theorem options_ok_for_mutating_resources (url : String) (hmem : url ∈ registeredPaths)
    (hne1 : url ≠ "/node") (hne2 : url ≠ "/diagnostics")
    (hmut : acceptsMutating url = true) (sub : SubHandler) (r : Response) :
    Handle sub url HttpMethod.kOptions r =
      { r with mCode := GetHttpStatus kStatusOk, mComplete := true } := by
  fin_cases hmem <;>
    first
      | rfl
      | exact absurd rfl hne1
      | exact absurd rfl hne2
      | exact absurd hmut (by decide)

/-- Witness for options_ok_for_mutating_resources: OPTIONS on the
ext-address resource, which accepts PUT, completes empty Ok. -/
theorem options_ok_for_mutating_resources_witness :
    Handle (fun _ r => r) "/node/ext-address" HttpMethod.kOptions respInit =
      { respInit with mCode := GetHttpStatus kStatusOk, mComplete := true } :=
  options_ok_for_mutating_resources "/node/ext-address" (by decide) (by decide) (by decide)
    (by decide) (fun _ r => r) respInit

/-- CLAIM C8. Dispatch errors: a request whose path is no exact-string
match of a registered path completes a ResourceNotFound error response,
and a request whose path is registered but whose method the handler does
not enumerate completes a MethodNotAllowed error response; in both cases
the response is marked complete immediately with the error kind serialized
into the body. -/
theorem dispatch_notfound_methodnotallowed (sub : SubHandler) (url : String)
    (m : HttpMethod) (r : Response) :
    (url ∉ registeredPaths →
      Handle sub url m r =
        { r with
            mCode := GetHttpStatus kStatusResourceNotFound
            mBody := Body.error kStatusResourceNotFound
              (GetHttpStatus kStatusResourceNotFound)
            mComplete := true }) ∧
    (url ∈ registeredPaths → accepts url m = false →
      Handle sub url m r =
        { r with
            mCode := GetHttpStatus kStatusMethodNotAllowed
            mBody := Body.error kStatusMethodNotAllowed
              (GetHttpStatus kStatusMethodNotAllowed)
            mComplete := true }) := by
  constructor
  · intro h
    unfold Handle
    have hnone : mResourceMap.find? (fun p => p.1 = url) = none := by
      rw [List.find?_eq_none]
      intro p hp
      simp only [decide_eq_true_eq]
      intro hk
      apply h
      rw [← hk]
      exact List.mem_map.mpr ⟨p, hp, rfl⟩
    rw [hnone]
    rfl
  · intro hmem hacc
    fin_cases hmem <;> cases m <;>
      first
        | rfl
        | exact absurd hacc (by decide)

/-- Witness for dispatch_notfound_methodnotallowed: an unregistered path
yields the completed 404 error, and PUT on the GET-only rloc resource
yields the completed 405 error. -/
theorem dispatch_notfound_methodnotallowed_witness :
    Handle (fun _ r => r) "/unknown" HttpMethod.kGet respInit =
        { respInit with
            mCode := GetHttpStatus kStatusResourceNotFound
            mBody := Body.error kStatusResourceNotFound
              (GetHttpStatus kStatusResourceNotFound)
            mComplete := true } ∧
      Handle (fun _ r => r) "/node/rloc" HttpMethod.kPut respInit =
        { respInit with
            mCode := GetHttpStatus kStatusMethodNotAllowed
            mBody := Body.error kStatusMethodNotAllowed
              (GetHttpStatus kStatusMethodNotAllowed)
            mComplete := true } :=
  ⟨(dispatch_notfound_methodnotallowed (fun _ r => r) "/unknown" HttpMethod.kGet respInit).1
      (by decide),
   (dispatch_notfound_methodnotallowed (fun _ r => r) "/node/rloc" HttpMethod.kPut respInit).2
      (by decide) (by decide)⟩

end Rest
end Otbr
